import Mathlib

/-!
Shallow embedding of `src/lib.py` of the mimic3-textmining repository, together
with theorems settling the specification claims about it.

Conventions of the embedding:
* Python floats are modelled as rationals (`ℚ`); all arithmetic appearing in the
  relevant code paths is exact (means, maxima, divisions by small constants).
* numpy arrays are modelled as `List ℚ` (1-D) or `List (List ℚ)` (2-D, row major);
  torch tensors appearing in `EncodedDataset` are modelled by the `Tensor` type
  below, which records the dimensionality because the code branches on it.
* Fallible Python code (raised exceptions) is modelled with `Except String`.
* Patient identifiers and labels are opaque keys; we use `Nat`.
* External collaborators (gensim, transformers tokenizer, torch metric objects)
  are modelled only through the contracts actually consumed by the repository
  code, as stated in the doc comment of each definition.
-/

namespace Mimic3

/-! ## Word2Vec pipeline: `W2VEmbedAggregate.transform` (src/lib.py lines 47-75) -/

/-- Lookup of a word vector in the embedding vocabulary. Models
`word_vectors[word]`, which raises `KeyError` for an out-of-vocabulary token;
the `try ... except KeyError: continue` of the source turns that into a skip,
which is the `Option` here. The vocabulary is an association list from token to
vector. -/
def vocabLookup (vocab : List (String × List ℚ)) (w : String) : Option (List ℚ) :=
  (vocab.find? (fun p => p.1 == w)).map (fun p => p.2)

/-- The in-vocabulary word vectors of one note, in token order. Models the
`note_list` accumulation loop of `transform` (lines 59-64). -/
def resolveTokens (vocab : List (String × List ℚ)) (note : List String) : List (List ℚ) :=
  note.filterMap (vocabLookup vocab)

/-- Elementwise fold over the rows of a 2-D array (axis 0). `np.max(arr, 0)` and
`np.min(arr, 0)` on a nonempty `(k, dim)` array are instances of this. -/
def npFold2 (f : ℚ → ℚ → ℚ) : List (List ℚ) → List ℚ
  | [] => []
  | r :: rs => rs.foldl (List.zipWith f) r

/-- Elementwise mean over the rows of a 2-D array: `np.mean(arr, 0)`. -/
def npMean2 (rows : List (List ℚ)) : List ℚ :=
  (npFold2 (fun a b => a + b) rows).map (fun x => x / (rows.length : ℚ))

/-- Elementwise max over the rows of a 2-D array: `np.max(arr, 0)`. -/
def npMax2 (rows : List (List ℚ)) : List ℚ := npFold2 max rows

/-- Elementwise min over the rows of a 2-D array: `np.min(arr, 0)`. -/
def npMin2 (rows : List (List ℚ)) : List ℚ := npFold2 min rows

/-- The `_concat_aggreg` lambda of `transform` (lines 54-56):
concatenation of elementwise mean, max and min over the stacked note vectors. -/
def concatAggreg (rows : List (List ℚ)) : List ℚ :=
  npMean2 rows ++ npMax2 rows ++ npMin2 rows

/-- `W2VEmbedAggregate.transform` (lines 47-75). `dim` is
`word_vectors.vector_size`. For each note the in-vocabulary vectors are
collected; if none resolve the output row is `np.zeros(dim*3)` (line 67),
otherwise the mean/max/min concatenation (line 70). The output matrix
`X : (n, dim*3)` is the returned list of rows, one per input note. -/
def transform (vocab : List (String × List ℚ)) (dim : Nat) (text : List (List String)) :
    List (List ℚ) :=
  text.map (fun note =>
    let resolved := resolveTokens vocab note
    if resolved.isEmpty then List.replicate (dim * 3) 0
    else concatAggreg resolved)

/-! ## Word2Vec pipeline: `_patient_aggregation` (src/lib.py lines 201-224) -/

/-- A numpy array value that is either 1-D or 2-D, as stored in
`patient_to_nv_map`: a patient seen once maps to the bare vector, a patient
seen more than once maps to the vstacked matrix. -/
inductive NpArr where
  | a1 : List ℚ → NpArr
  | a2 : List (List ℚ) → NpArr
deriving DecidableEq

/-- `np.vstack((a, v))` as used on line 211/217: stacking a fresh row under the
current entry. A 1-D `(d,)` array becomes a `(2, d)` matrix; a `(k, d)` matrix
becomes `(k+1, d)`. -/
def npVstack (a : NpArr) (v : List ℚ) : NpArr :=
  match a with
  | NpArr.a1 w => NpArr.a2 [w, v]
  | NpArr.a2 rows => NpArr.a2 (rows ++ [v])

/-- Result of `np.mean(arr, 0)` (line 221): on a 1-D array numpy reduces over
the only axis and returns a scalar; on a 2-D array it returns the elementwise
mean of the rows. -/
inductive NpVal where
  | scalar : ℚ → NpVal
  | vec : List ℚ → NpVal
deriving DecidableEq

/-- `np.mean(arr, 0)` on an `NpArr`. -/
def npMean0 (a : NpArr) : NpVal :=
  match a with
  | NpArr.a1 v => NpVal.scalar (v.sum / (v.length : ℚ))
  | NpArr.a2 rows => NpVal.vec (npMean2 rows)

/-- The row assignment `X[i,:] = value` (line 221) into a row of width `dim`:
a scalar is broadcast across the whole row; a vector is accepted only when its
length matches the row width, otherwise numpy raises
`ValueError: could not broadcast input array`. -/
def assignRow (dim : Nat) (v : NpVal) : Except String (List ℚ) :=
  match v with
  | NpVal.scalar s => Except.ok (List.replicate dim s)
  | NpVal.vec w =>
      if w.length = dim then Except.ok w
      else Except.error "ValueError: could not broadcast input array"

/-- Insertion into the Python dict `patient_to_nv_map` (lines 213-217): a first
occurrence of the key appends a `(key, vector)` entry at the end (dicts preserve
insertion order), a repeated key vstacks onto the existing entry in place. -/
def omapUpdate (m : List (Nat × NpArr)) (k : Nat) (v : List ℚ) : List (Nat × NpArr) :=
  match m with
  | [] => [(k, NpArr.a1 v)]
  | kv :: rest =>
      if kv.1 = k then (kv.1, npVstack kv.2 v) :: rest
      else kv :: omapUpdate rest k v

/-- The output loop of `_patient_aggregation` (lines 218-222): each stored
array is reduced with `np.mean(array, 0)` and assigned into the next row of
`X`, which has width `dim`; the first failing assignment raises. -/
def assignRows (dim : Nat) : List (Nat × NpArr) → Except String (List (List ℚ))
  | [] => Except.ok []
  | kv :: rest =>
      match assignRow dim (npMean0 kv.2) with
      | Except.error e => Except.error e
      | Except.ok row =>
          match assignRows dim rest with
          | Except.error e => Except.error e
          | Except.ok rows => Except.ok (row :: rows)

/-- `_patient_aggregation` (lines 201-224), `labels=None` branch, which is the
one used by `train` (line 232). `dim` is
`self.w2v_agg_model.embedding.wv.vector_size` (line 202) and is the width used
to allocate `X = np.empty((len(patient_to_nv_map), dim))` (line 218). Units are
grouped by patient id in first-seen order (Python dict), then each row of `X`
is assigned `np.mean(array, 0)` for that patient. -/
def patientAggregation (patientIds : List Nat) (noteVectors : List (List ℚ)) (dim : Nat) :
    Except String (List (List ℚ)) :=
  let m := (patientIds.zip noteVectors).foldl (fun m pv => omapUpdate m pv.1 pv.2) []
  assignRows dim m

/-! ## Word2Vec pipeline: `_load_data` (src/lib.py lines 90-160) -/

/-- A Python value flowing through the return statement of `_load_data`. -/
inductive PyVal where
  | natArr : List Nat → PyVal
  | notes : List (List String) → PyVal
  | tup : List PyVal → PyVal

/-- The Python builtin `tuple` applied to the given positional arguments.
`tuple()` is the empty tuple, `tuple(iterable)` converts its single argument
(that form is never reached in this code path, so it is modelled as the
identity), and any call with more than one positional argument raises
`TypeError: tuple expected at most 1 argument`. -/
def pyTuple : List PyVal → Except String PyVal
  | [] => Except.ok (PyVal.tup [])
  | [v] => Except.ok v
  | args =>
      Except.error ("TypeError: tuple expected at most 1 argument, got "
        ++ toString args.length)

/-- First-seen deduplication, modelling `list(dict.fromkeys(patient_ids))`
(line 134). -/
def dedupFirstSeen (l : List Nat) : List Nat :=
  l.foldl (fun acc x => if acc.contains x then acc else acc ++ [x]) []

/-- `_load_data` (lines 90-150), modelled from the point where the CSV files
have been parsed: `chunks` is the chunked corpus, each row a pair of patient id
(the dataframe index `SUBJECT_ID`) and tokenized note text; `readm` is the
readmission label table as (patient id, label) rows with unique patient ids.
Faithful steps: each chunk is filtered to ids present in the label table
(line 110); ids and tokenized notes are accumulated (lines 111, 119-120); debug
mode stops after the first chunk (lines 121-122); the label table is filtered to
seen ids and the per-unique-patient label list is built by positional lookup
(lines 126-136); the gridsearch labels duplicate the label per unit (lines
139-144). Both return branches construct the result with `tuple(...)` applied
to three or four positional arguments (lines 146, 148). -/
def loadData (chunks : List (List (Nat × List String))) (readm : List (Nat × Nat))
    (db : Bool) (adaptForGridsearch : Bool) : Except String PyVal :=
  let readmIds := readm.map (fun kv => kv.1)
  let usedChunks := if db then chunks.take 1 else chunks
  let filtered := usedChunks.map (fun c => c.filter (fun r => readmIds.contains r.1))
  let patientIds := (filtered.map (fun c => c.map (fun r => r.1))).flatten
  let text := (filtered.map (fun c => c.map (fun r => r.2))).flatten
  let readmF := readm.filter (fun kv => patientIds.contains kv.1)
  let inputLabels := readmF.map (fun kv => kv.2)
  let uniqueIds := dedupFirstSeen patientIds
  let labels := uniqueIds.map (fun p => inputLabels.getD (readmF.findIdx (fun kv => kv.1 == p)) 0)
  if adaptForGridsearch then
    let gridsearchLabels :=
      patientIds.filterMap (fun p => (readmF.find? (fun kv => kv.1 == p)).map (fun kv => kv.2))
    pyTuple [PyVal.natArr patientIds, PyVal.notes text, PyVal.natArr labels,
      PyVal.natArr gridsearchLabels]
  else
    pyTuple [PyVal.natArr patientIds, PyVal.notes text, PyVal.natArr labels]

/-- `_load_train_data` (lines 152-156): unpacks the four components of the
`_load_data` result into attributes. An exception from `_load_data`
propagates. -/
def loadTrainData (chunks : List (List (Nat × List String))) (readm : List (Nat × Nat))
    (db : Bool) : Except String (List Nat × List (List String) × List Nat × List Nat) :=
  match loadData chunks readm db true with
  | Except.error e => Except.error e
  | Except.ok (PyVal.tup [PyVal.natArr a, PyVal.notes b, PyVal.natArr c, PyVal.natArr d]) =>
      Except.ok (a, b, c, d)
  | Except.ok _ => Except.error "ValueError: not enough values to unpack"

/-- `_load_test_data` (lines 158-160): unpacks the three components of the
`_load_data` result (called with `adapt_for_gridsearch` defaulted to False). -/
def loadTestData (chunks : List (List (Nat × List String))) (readm : List (Nat × Nat))
    (db : Bool) : Except String (List Nat × List (List String) × List Nat) :=
  match loadData chunks readm db false with
  | Except.error e => Except.error e
  | Except.ok (PyVal.tup [PyVal.natArr a, PyVal.notes b, PyVal.natArr c]) => Except.ok (a, b, c)
  | Except.ok _ => Except.error "ValueError: not enough values to unpack"

/-! ## Word2Vec pipeline: `choose_params` wiring (src/lib.py lines 162-199) -/

/-- Configuration of the `StratifiedKFold` cross-validation splitter built on
line 188: `n_splits=5, shuffle=True, random_state=self.seed`. -/
structure StratifiedKFoldConfig where
  nSplits : Nat
  shuffle : Bool
  randomState : Option Nat
deriving DecidableEq

/-- The CV splitter constructed by `choose_params` (line 188). -/
def chooseParamsCV (seed : Nat) : StratifiedKFoldConfig :=
  { nSplits := 5, shuffle := true, randomState := some seed }

/-- The `random_state` given to the `SGDClassifier` of the pipeline
(line 169). -/
def chooseParamsClfSeed (seed : Nat) : Option Nat := some seed

/-- The keys of the hyperparameter grid of `choose_params` (lines 173-181). -/
def chooseParamsGridKeys : List String :=
  ["embed_agg__sg", "embed_agg__size", "embed_agg__window", "embed_agg__alpha", "clf__alpha"]

/-- `W2VEmbedAggregate.arg_names` (line 34): the only attribute names that
`set_params` accepts (line 37) and that `fit` forwards to the `Word2Vec`
constructor (lines 41-43). -/
def argNames : List String :=
  ["sg", "size", "window", "min_count", "alpha", "iter", "workers"]

/-- The keyword arguments that reach the `Word2Vec` constructor when `fit`
runs after `set_params(attrs)`: both the `set_params` update (line 37) and the
`fit` collection (line 42) keep exactly the pairs whose key is in
`arg_names`. -/
def w2vKwargs (attrs : List (String × Nat)) : List (String × Nat) :=
  attrs.filter (fun kv => argNames.contains kv.1)

/-! ## Unlabeled-patient handling (src/lib.py line 110 and line 441) -/

/-- The corpus-side filter of `_load_data` (line 110):
`chunk[chunk.index.isin(readm_df.index)]` keeps only corpus rows whose patient
id appears in the label table index. -/
def loadDataFilterIds (corpus : List (Nat × String)) (labelIds : List Nat) :
    List (Nat × String) :=
  corpus.filter (fun r => labelIds.contains r.1)

/-- The label merge of `MIMICBERTReadmissionPredictor.setup` (line 441):
`text_df.merge(read_csv(rfp), on='SUBJECT_ID', how='left')`. A left merge keeps
every corpus row; the label column of a row whose patient id has no entry in
the label table is missing (NaN), modelled as `none`. The label table is
indexed by patient id, hence at most one matching row per key. -/
def leftMergeLabels (corpus : List (Nat × String)) (labelTable : List (Nat × Nat)) :
    List (Nat × String × Option Nat) :=
  corpus.map (fun r => (r.1, r.2, (labelTable.find? (fun kv => kv.1 == r.1)).map (fun kv => kv.2)))

/-! ## BERT pipeline: parameter freezing (src/lib.py lines 418-422) -/

/-- Parameter names of the external `BertForSequenceClassification`
collaborator as produced by `named_parameters()`. Torch prefixes each name with
the dotted attribute path of its submodule; the encoder lives in the attribute
`bert` and the classification head in `classifier`, so every name begins with
one of those two attribute names. A representative subset is listed; the
embedding sub-layer parameters are the five `bert.embeddings.*` entries. -/
def bertParamNames : List String :=
  ["bert.embeddings.word_embeddings.weight",
   "bert.embeddings.position_embeddings.weight",
   "bert.embeddings.token_type_embeddings.weight",
   "bert.embeddings.LayerNorm.weight",
   "bert.embeddings.LayerNorm.bias",
   "bert.encoder.layer.0.attention.self.query.weight",
   "bert.encoder.layer.0.attention.self.query.bias",
   "bert.pooler.dense.weight",
   "bert.pooler.dense.bias",
   "classifier.weight",
   "classifier.bias"]

/-- The Python string method `s.startswith(pre)`. -/
def pyStartswith (s pre : String) : Bool := pre.data.isPrefixOf s.data

/-- The freezing loop of `MIMICBERTReadmissionPredictor.__init__`
(lines 420-422): every parameter whose name satisfies
`name.startswith('embeddings')` gets `requires_grad = False`; all others are
left untouched. -/
def freezeEmbeddingParams (ps : List (String × Bool)) : List (String × Bool) :=
  ps.map (fun p => if pyStartswith p.1 "embeddings" then (p.1, false) else p)

/-- The `requires_grad` state of the model parameters after `__init__`
(lines 418-422): parameters start trainable; when `update_all_params` is false
the freezing loop runs, otherwise nothing is modified. -/
def initRequiresGrad (updateAllParams : Bool) (names : List String) : List (String × Bool) :=
  if updateAllParams then names.map (fun n => (n, true))
  else freezeEmbeddingParams (names.map (fun n => (n, true)))

/-! ## BERT pipeline: `validation_epoch_end` (src/lib.py lines 512-526) -/

/-- `validation_epoch_end` (lines 512-526) after the concatenation of the
per-batch losses, predictions and labels (line 513). When
`sum(labels).item() in [len(labels), 0.0]` the source executes
`raise RuntimeWarning(...)` (lines 514-515), which raises an exception; the
exception propagates out of the hook uncaught (nothing in the repository
catches it). Otherwise the epoch result is assembled from the loss and the
external metric objects, to which the predictions and labels are passed
unchanged; the model returns those inputs of the metric computation. -/
def validationEpochEnd (loss : List ℚ) (predictions labels : List Nat) :
    Except String (List ℚ × List Nat × List Nat) :=
  if labels.sum = labels.length ∨ labels.sum = 0 then
    Except.error "RuntimeWarning: val labels all the same, skipping epoch_end step"
  else Except.ok (loss, predictions, labels)

/-! ## BERT pipeline: logit aggregation (src/lib.py lines 537-623) -/

/-- `np.max` of a 1-D array (empty input never occurs in the modelled calls;
numpy would raise there, the model returns 0). -/
def npMax1 : List ℚ → ℚ
  | [] => 0
  | x :: xs => xs.foldl max x

/-- `np.mean` of a 1-D array. -/
def npMean1 (v : List ℚ) : ℚ := v.sum / (v.length : ℚ)

/-- The `_scale` closure of `_aggreg_subseq_logits` (lines 593-595):
`factor = len(logits)/self.proba_aggregation_scale_factor` and
`(np.max(logits)+np.mean(logits)*factor)/(1+factor)`. -/
def scaleLogits (scaleFactor : ℚ) (v : List ℚ) : ℚ :=
  let factor := (v.length : ℚ) / scaleFactor
  (npMax1 v + npMean1 v * factor) / (1 + factor)

/-- A Python value stored in a step-output dict of the Lightning module. -/
inductive TVal where
  | t1 : List ℚ → TVal
  | t2 : List (List ℚ) → TVal
  | nats : List Nat → TVal
  | dict : List (String × TVal) → TVal

/-- The dict returned by `test_step` (lines 541-546): its keys are exactly
`loss`, `logits`, `labels` and `log`; there is no `patient_ids` entry. -/
def testStepOutput (loss : List ℚ) (logits : List (List ℚ)) (labels : List Nat) :
    List (String × TVal) :=
  [("loss", TVal.t1 loss), ("logits", TVal.t2 logits), ("labels", TVal.nats labels),
   ("log", TVal.dict [("test_loss", TVal.t1 loss)])]

/-- Python dict subscription `o[k]`: raises `KeyError` when the key is
absent. -/
def dictGet (d : List (String × TVal)) (k : String) : Except String TVal :=
  match d.find? (fun e => e.1 == k) with
  | some e => Except.ok e.2
  | none => Except.error ("KeyError: " ++ k)

/-- The opening of `_aggreg_subseq_logits` (lines 597-600):
`logits, labels, patient_ids = map(lambda s: [o[s] for o in output_list], ...)`,
unpacked left to right. The remainder of the function (lines 602-623) is
unreachable for outputs produced by `test_step`, because the `patient_ids`
lookup raises first; the model therefore stops at these three comprehensions. -/
def aggregSubseqLogitsPrelude (outputList : List (List (String × TVal))) :
    Except String (List TVal × List TVal × List TVal) := do
  let logits ← outputList.mapM (fun o => dictGet o "logits")
  let labels ← outputList.mapM (fun o => dictGet o "labels")
  let patientIds ← outputList.mapM (fun o => dictGet o "patient_ids")
  Except.ok (logits, labels, patientIds)

/-! ## BERT pipeline: `EncodedDataset` (src/lib.py lines 311-378) -/

/-- A 2-D torch tensor: number of rows, number of columns, and the row-major
data. -/
structure Tensor2 where
  rows : Nat
  cols : Nat
  data : List (List Int)
deriving DecidableEq

/-- A torch tensor as handled by `EncodedDataset.__init__`: the code branches
on dimensionality (`torch.cat` requires equal numbers of dimensions, `shape[1]`
requires 2-D), so the model records it. -/
inductive Tensor where
  | d1 : List Int → Tensor
  | d2 : Tensor2 → Tensor
deriving DecidableEq

/-- Row slicing `t[a:b]` of a 2-D tensor (slicing acts on the first axis and
clips out-of-range bounds). -/
def t2RowSlice (t : Tensor2) (a b : Nat) : Tensor2 :=
  let d := (t.data.drop a).take (b - a)
  { rows := d.length, cols := t.cols, data := d }

/-- `torch.ones(n)`: a 1-D tensor of ones. -/
def torchOnes (n : Nat) : Tensor := Tensor.d1 (List.replicate n 1)

/-- `torch.zeros(n)` where `n` may be a negative Python int: torch raises on a
negative dimension. -/
def torchZeros (n : Int) : Except String Tensor :=
  if n < 0 then Except.error "RuntimeError: Trying to create tensor with negative dimension"
  else Except.ok (Tensor.d1 (List.replicate n.toNat 0))

/-- `torch.cat((a, b))` along the default axis 0: both tensors must have the
same number of dimensions; 1-D tensors are appended, 2-D tensors are stacked
row-wise when their column counts agree. -/
def torchCat (a b : Tensor) : Except String Tensor :=
  match a, b with
  | Tensor.d1 x, Tensor.d1 y => Except.ok (Tensor.d1 (x ++ y))
  | Tensor.d2 x, Tensor.d2 y =>
      if x.cols = y.cols then
        Except.ok (Tensor.d2 { rows := x.rows + y.rows, cols := x.cols, data := x.data ++ y.data })
      else Except.error "RuntimeError: Sizes of tensors must match"
  | _, _ => Except.error "RuntimeError: Tensors must have same number of dimensions"

/-- `tensor.reshape(seq_len)` on the `(1, seq_len)` tensors returned by the
tokenizer (lines 333-334): flattening to a 1-D tensor of length `seq_len`;
torch raises when the number of elements differs. -/
def reshapeTo (t : Tensor2) (L : Nat) : Except String (List Int) :=
  let flat := t.data.flatten
  if flat.length = L then Except.ok flat
  else Except.error "RuntimeError: shape invalid for input size"

/-- The output of `tokenizer.encode_plus` (lines 323-332) for one note, as
consumed by `EncodedDataset.__init__`. The external tokenizer is called with
`truncation=True, max_length=seq_len, pad_to_max_length=True,
return_attention_mask=True, return_tensors='pt',
return_overflowing_tokens=True`; per its contract it returns `input_ids` and
`attention_mask` as `(1, seq_len)` tensors, and, exactly when the note did not
fit into the budget, an `overflowing_tokens` tensor carrying the leftover
tokens; with `return_tensors='pt'` the converted tensor gets a prepended batch
axis, so its shape is `(1, overflowLength)`. -/
structure Encoding where
  inputIds : Tensor2
  attnMask : Tensor2
  overflow : Option Tensor2
deriving DecidableEq

/-- The four parallel lists accumulated by `EncodedDataset.__init__` and stored
as attributes (lines 321, 361-364). -/
structure EncodedDataset where
  inputIds : List Tensor
  attnMasks : List Tensor
  labels : List Nat
  patientIds : List Nat
deriving DecidableEq

/-- Python `ceil(a/b)` for nonnegative ints with `b > 0`. -/
def pyCeilDiv (a b : Nat) : Nat := (a + b - 1) / b

/-- One iteration of the overflow loop (lines 343-359) for chunk index `i`:
the patient id and label are duplicated (lines 345-346), the chunk
`overflow[seq_len*i:seq_len*(i+1)]` is sliced along axis 0 (line 347), its
`shape[1]` is read as the chunk length (line 348), and either an all-ones mask
is built (line 350) or the chunk and mask are padded with
`torch.zeros(seq_len - overflow_seq_len)` via `torch.cat` (lines 352-357).
The resulting sequence and mask are appended (lines 358-359). -/
def overflowStep (L patient label : Nat) (ov : Tensor2) (acc : EncodedDataset) (i : Nat) :
    Except String EncodedDataset :=
  let acc1 : EncodedDataset :=
    { acc with labels := acc.labels ++ [label], patientIds := acc.patientIds ++ [patient] }
  let seq := t2RowSlice ov (L * i) (L * (i + 1))
  let seqLen := seq.cols
  if seqLen = L then
    Except.ok { acc1 with inputIds := acc1.inputIds ++ [Tensor.d2 seq],
                          attnMasks := acc1.attnMasks ++ [torchOnes L] }
  else
    match torchZeros ((L : Int) - (seqLen : Int)) with
    | Except.error e => Except.error e
    | Except.ok z =>
      match torchCat (Tensor.d2 seq) z with
      | Except.error e => Except.error e
      | Except.ok seqPadded =>
        match torchZeros ((L : Int) - (seqLen : Int)) with
        | Except.error e => Except.error e
        | Except.ok z2 =>
          match torchCat (torchOnes seqLen) z2 with
          | Except.error e => Except.error e
          | Except.ok mask =>
              Except.ok { acc1 with inputIds := acc1.inputIds ++ [seqPadded],
                                    attnMasks := acc1.attnMasks ++ [mask] }

/-- Left fold over a list where the step can raise: models a Python for-loop
whose body may raise an exception, which aborts the whole computation. -/
def foldE {α β : Type} (f : β → α → Except String β) : β → List α → Except String β
  | b, [] => Except.ok b
  | b, a :: t =>
      match f b a with
      | Except.error e => Except.error e
      | Except.ok b1 => foldE f b1 t

/-- The overflow handling of one note (lines 338-359): `n_overflow` is
`len(overflow)`, which on a tensor is the size of the first axis, and the loop
runs over `range(ceil(n_overflow/seq_len))`. -/
def overflowLoop (ov : Tensor2) (L patient label : Nat) (acc : EncodedDataset) :
    Except String EncodedDataset :=
  let nOverflow := ov.rows
  foldE (overflowStep L patient label ov) acc (List.range (pyCeilDiv nOverflow L))

/-- Processing of one dataframe row by `EncodedDataset.__init__` (lines
322-359): the primary `(1, seq_len)` encodings are reshaped to 1-D and appended
together with the patient id and label (lines 333-336), then the overflow loop
runs when the encoding has overflowing tokens (line 338). -/
def initStep (L : Nat) (acc : EncodedDataset) (row : Nat × Nat × Encoding) :
    Except String EncodedDataset :=
  let patient := row.1
  let label := row.2.1
  let enc := row.2.2
  match reshapeTo enc.inputIds L with
  | Except.error e => Except.error e
  | Except.ok ids =>
    match reshapeTo enc.attnMask L with
    | Except.error e => Except.error e
    | Except.ok mask =>
      let acc1 : EncodedDataset :=
        { inputIds := acc.inputIds ++ [Tensor.d1 ids],
          attnMasks := acc.attnMasks ++ [Tensor.d1 mask],
          labels := acc.labels ++ [label],
          patientIds := acc.patientIds ++ [patient] }
      match enc.overflow with
      | none => Except.ok acc1
      | some ov => overflowLoop ov L patient label acc1

/-- `EncodedDataset.__init__` (lines 315-364) over the rows of the dataframe,
each row carrying `(SUBJECT_ID, READM, encode_plus output)`; `L` is
`seq_len`. -/
def encodedInit (rowsDf : List (Nat × Nat × Encoding)) (L : Nat) :
    Except String EncodedDataset :=
  foldE (initStep L) { inputIds := [], attnMasks := [], labels := [], patientIds := [] } rowsDf

/-- `EncodedDataset.__len__` (lines 366-367): the length of the
`patient_ids` list. -/
def dsLen (ds : EncodedDataset) : Nat := ds.patientIds.length

/-- `EncodedDataset.__getitem__` (lines 369-378): indexes each of the four
lists at the same position; `none` models an `IndexError`. -/
def getItem (ds : EncodedDataset) (idx : Nat) : Option (Tensor × Tensor × Nat × Nat) :=
  match ds.inputIds[idx]?, ds.attnMasks[idx]?, ds.labels[idx]?, ds.patientIds[idx]? with
  | some a, some b, some c, some d => some (a, b, c, d)
  | _, _, _, _ => none

/-! ## Concrete sample data used in the evaluation theorems -/

/-- A primary `(1, 256)` token tensor, as returned by the tokenizer for the
first window of a long note. -/
def primary256 : Tensor2 := { rows := 1, cols := 256, data := [List.replicate 256 5] }

/-- The matching `(1, 256)` all-ones attention mask. -/
def maskFull256 : Tensor2 := { rows := 1, cols := 256, data := [List.replicate 256 1] }

/-- The encoding of a long note whose overflow carries `m` tokens: the
`overflowing_tokens` tensor has shape `(1, m)`. -/
def encWithOverflow (m : Nat) : Encoding :=
  { inputIds := primary256, attnMask := maskFull256,
    overflow := some { rows := 1, cols := m, data := [List.replicate m 9] } }

/-- A short note encoding with budget 2 and no overflow. -/
def encShort : Encoding :=
  { inputIds := { rows := 1, cols := 2, data := [[11, 12]] },
    attnMask := { rows := 1, cols := 2, data := [[1, 1]] },
    overflow := none }

/-- A note encoding with budget 2 whose overflow is exactly one full chunk of
2 tokens. -/
def encFullChunk : Encoding :=
  { inputIds := { rows := 1, cols := 2, data := [[21, 22]] },
    attnMask := { rows := 1, cols := 2, data := [[1, 1]] },
    overflow := some { rows := 1, cols := 2, data := [[31, 32]] } }

/-- Two dataframe rows: patient 1 with a short note, patient 2 with an
overflowing note. -/
def sampleRows : List (Nat × Nat × Encoding) := [(1, 0, encShort), (2, 1, encFullChunk)]

/-- The dataset built by `encodedInit sampleRows 2`: three Units (two primary,
one overflow Unit inheriting patient 2 and label 1). -/
def sampleDS : EncodedDataset :=
  { inputIds := [Tensor.d1 [11, 12], Tensor.d1 [21, 22],
      Tensor.d2 { rows := 1, cols := 2, data := [[31, 32]] }],
    attnMasks := [Tensor.d1 [1, 1], Tensor.d1 [1, 1], Tensor.d1 [1, 1]],
    labels := [0, 1, 1],
    patientIds := [1, 2, 2] }

/-- The alignment invariant of `EncodedDataset`: the four parallel lists have
equal length. -/
def balanced (ds : EncodedDataset) : Prop :=
  ds.inputIds.length = ds.patientIds.length ∧
  ds.attnMasks.length = ds.patientIds.length ∧
  ds.labels.length = ds.patientIds.length

/-!
# Theorems

Helper lemmas come first, then one designated theorem (with witness or
counterexample where applicable) per specification claim.
-/

/-- C9: for every corpus chunking, label table, debug flag, and either value of
`adapt_for_gridsearch`, `_load_data` raises a `TypeError` when building its
result, because both return branches apply `tuple` to three or four positional
arguments; consequently `_load_train_data` and `_load_test_data` (and with
them `choose_params`, `train` and `test`, which consume the attributes these
would have set) can never complete normally through this code path. -/
theorem c9_load_data_tuple_typeerror (chunks : List (List (Nat × List String)))
    (readm : List (Nat × Nat)) (db adapt : Bool) :
    loadData chunks readm db adapt
      = Except.error (if adapt then "TypeError: tuple expected at most 1 argument, got 4"
          else "TypeError: tuple expected at most 1 argument, got 3") ∧
    loadTrainData chunks readm db
      = Except.error "TypeError: tuple expected at most 1 argument, got 4" ∧
    loadTestData chunks readm db
      = Except.error "TypeError: tuple expected at most 1 argument, got 3" := by
  refine ⟨?_, ?_, ?_⟩
  · cases adapt
    · exact (rfl : (Except.error ("TypeError: tuple expected at most 1 argument, got "
        ++ toString (3 : Nat)) : Except String PyVal) = _)
    · exact (rfl : (Except.error ("TypeError: tuple expected at most 1 argument, got "
        ++ toString (4 : Nat)) : Except String PyVal) = _)
  · exact (rfl : (Except.error ("TypeError: tuple expected at most 1 argument, got "
      ++ toString (4 : Nat)) : Except String (List Nat × List (List String) × List Nat × List Nat)) = _)
  · exact (rfl : (Except.error ("TypeError: tuple expected at most 1 argument, got "
      ++ toString (3 : Nat)) : Except String (List Nat × List (List String) × List Nat)) = _)

/-- C9 witness: the `TypeError` at a concrete one-chunk corpus and one-row
label table. -/
theorem c9_load_data_tuple_typeerror_witness :
    loadData [[(1, ["tok"])]] [(1, 0)] false false
      = Except.error "TypeError: tuple expected at most 1 argument, got 3" :=
  (c9_load_data_tuple_typeerror [[(1, ["tok"])]] [(1, 0)] false false).1

/-- C5: the degenerate validation epoch does abort. `validation_epoch_end`
executes `raise RuntimeWarning(...)` when the concatenated labels are all ones
or all zeros; the raised exception propagates uncaught out of the hook, so the
epoch is not skipped recoverably. A mixed-label epoch proceeds normally. -/
theorem c5_degenerate_epoch_raises :
    validationEpochEnd [1] [1, 1, 1] [1, 1, 1]
      = Except.error "RuntimeWarning: val labels all the same, skipping epoch_end step" ∧
    validationEpochEnd [1] [0, 1] [0, 0]
      = Except.error "RuntimeWarning: val labels all the same, skipping epoch_end step" ∧
    validationEpochEnd [1] [0, 1] [0, 1] = Except.ok ([1], [0, 1], [0, 1]) := by
  exact ⟨rfl, rfl, rfl⟩

/-- C7: the freezing loop is a no-op. With `update_all_params = False` every
parameter of the model, the embedding sub-layer included, still has
`requires_grad = True` after `__init__`, because the guard
`name.startswith('embeddings')` never matches the collaborator parameter names
(all of which begin with `bert.` or `classifier.`); the flag therefore has no
effect at all. -/
theorem c7_embedding_freeze_noop :
    (initRequiresGrad false bertParamNames).all (fun p => p.2) = true ∧
    initRequiresGrad false bertParamNames = initRequiresGrad true bertParamNames := by
  exact ⟨by decide, by decide⟩

/-- C8 counterexample: no explicit seed is passed through the embedding
component of the Stage-1 search. The `Word2Vec` constructor kwargs are
restricted to `arg_names`, which does not include a seed, and the search grid
has no seed entry either, so the claimed mechanism (an explicit seed through
every stochastic component) does not hold. -/
theorem c8_no_embedding_seed_cx :
    argNames.contains "seed" = false ∧
    chooseParamsGridKeys.contains "embed_agg__seed" = false ∧
    w2vKwargs [("seed", 42)] = [] := by
  exact ⟨rfl, rfl, rfl⟩

/-- C8 amended: `choose_params` does pass the configured seed to the CV
splitter and to the classifier, but a seed handed to the embedding stage is
dropped by the `arg_names` filter and thus never reaches the `Word2Vec`
constructor. -/
theorem c8_partial_seeding_amended :
    chooseParamsCV 42 = { nSplits := 5, shuffle := true, randomState := some 42 } ∧
    chooseParamsClfSeed 42 = some 42 ∧
    w2vKwargs [("sg", 1), ("size", 100), ("window", 5), ("alpha", 1), ("seed", 42), ("workers", 4)]
      = [("sg", 1), ("size", 100), ("window", 5), ("alpha", 1), ("workers", 4)] ∧
    argNames.contains "seed" = false := by
  exact ⟨rfl, rfl, rfl, rfl⟩

/-- C6 counterexample: with corpus rows for patients 1 and 2 but a label table
covering only patient 1, the transformer-pipeline setup (left merge) retains
the note of the unlabeled patient 2 with a missing label instead of dropping
it, while the word2vec-pipeline corpus filter does drop it. -/
theorem c6_left_merge_keeps_unlabeled_cx :
    leftMergeLabels [(1, "a"), (2, "b")] [(1, 0)]
      = [(1, "a", some 0), (2, "b", none)] ∧
    loadDataFilterIds [(1, "a"), (2, "b")] [1] = [(1, "a")] := by
  exact ⟨rfl, rfl⟩

/-- C6 amended: a patient present in the corpus but absent from the label
table is dropped by the word2vec pipeline (`_load_data` keeps only corpus rows
whose id is in the label table), while the transformer pipeline retains the
row with a missing (`none`) label after its left merge; in neither pipeline is
a concrete default label fabricated. -/
theorem c6_unlabeled_patients_amended (corpus : List (Nat × String))
    (labelTable : List (Nat × Nat)) (r : Nat × String) (hr : r ∈ corpus)
    (hnl : ∀ kv ∈ labelTable, kv.1 ≠ r.1) :
    r ∉ loadDataFilterIds corpus (labelTable.map (fun kv => kv.1)) ∧
    (r.1, r.2, (none : Option Nat)) ∈ leftMergeLabels corpus labelTable := by
  constructor
  · intro hmem
    have hc := (List.mem_filter.mp hmem).2
    have hm : r.1 ∈ labelTable.map (fun kv => kv.1) := by simpa using hc
    rcases List.mem_map.mp hm with ⟨kv, hkv, heq⟩
    exact hnl kv hkv heq
  · refine List.mem_map.mpr ⟨r, hr, ?_⟩
    have hf : labelTable.find? (fun kv => kv.1 == r.1) = none := by
      refine List.find?_eq_none.mpr ?_
      intro kv hkv
      simpa using hnl kv hkv
    simp [hf]

/-- C6 amended, witness: a concrete corpus with patients 1 and 2 and a label
table with only patient 1. -/
theorem c6_unlabeled_patients_amended_witness :
    (2, "b") ∉ loadDataFilterIds [(1, "a"), (2, "b")] [1] ∧
    ((2 : Nat), "b", (none : Option Nat)) ∈ leftMergeLabels [(1, "a"), (2, "b")] [(1, 0)] := by
  exact c6_unlabeled_patients_amended [(1, "a"), (2, "b")] [(1, 0)] (2, "b")
    (by simp) (by decide)

/-- C1 evidence of the bug in `_patient_aggregation`: with embedding dimension
1 the Unit vectors produced by `transform` have length 3, yet the output
matrix is allocated with row width `vector_size = 1`. For a patient with one
Unit, `np.mean` of the 1-D vector is a scalar that is broadcast across the
too-narrow row (the output row is the scalar mean `[2]`, not the Unit vector
`[1, 2, 3]` unchanged); for a patient with two Units the elementwise mean has
length 3 and cannot be assigned into the width-1 row, so numpy raises. -/
theorem c1_patient_aggregation_bug :
    patientAggregation [7] [[1, 2, 3]] 1 = Except.ok [[2]] ∧
    [[(2 : ℚ)]] ≠ [[(1 : ℚ), 2, 3]] ∧
    patientAggregation [7, 7] [[1, 2, 3], [3, 4, 5]] 1
      = Except.error "ValueError: could not broadcast input array" := by
  refine ⟨?_, by norm_num, ?_⟩
  · simp only [patientAggregation, List.zip, List.zipWith, List.foldl, omapUpdate,
      assignRows, npMean0, assignRow, List.sum_cons, List.sum_nil, List.length_cons,
      List.length_nil]
    norm_num
  · simp only [patientAggregation, List.zip, List.zipWith, List.foldl, omapUpdate,
      npVstack, assignRows, npMean0, npMean2, npFold2, assignRow, List.length_cons,
      List.length_nil]
    norm_num

/-- C2 evidence of the bug in `_aggreg_subseq_logits`: the function starts by
reading `o['patient_ids']` from every step output, but the dicts returned by
`test_step` have no such key, so a `KeyError` is raised before any patient
aggregate is produced. The inner `_scale` helper itself does implement the
length-weighted blend: with scale factor 2 a single score is returned exactly,
and for two scores the result is `(max + mean * k) / (1 + k)` with `k = 1`. -/
theorem c2_logit_aggregation_bug :
    aggregSubseqLogitsPrelude [testStepOutput [1] [[2, 3]] [1]]
      = Except.error "KeyError: patient_ids" ∧
    scaleLogits 2 [5] = 5 ∧
    scaleLogits 2 [1, 3] = (3 + 2 * 1) / (1 + 1) := by
  refine ⟨rfl, ?_, ?_⟩
  · simp only [scaleLogits, npMax1, npMean1, List.foldl, List.sum_cons, List.sum_nil,
      List.length_cons, List.length_nil]
    norm_num
  · simp only [scaleLogits, npMax1, npMean1, List.foldl, List.sum_cons, List.sum_nil,
      List.length_cons, List.length_nil]
    rw [max_eq_right (by norm_num : (1 : ℚ) ≤ 3)]
    norm_num

/-- Auxiliary: a left fold of `List.zipWith f` over rows of a fixed length
keeps the accumulator length. -/
theorem foldl_zipWith_length (f : ℚ → ℚ → ℚ) (dim : Nat) :
    ∀ (rs : List (List ℚ)) (acc : List ℚ), acc.length = dim →
      (∀ r ∈ rs, r.length = dim) → (rs.foldl (List.zipWith f) acc).length = dim := by
  intro rs
  induction rs with
  | nil => intro acc ha _; simpa using ha
  | cons r t ih =>
      intro acc ha hr
      simp only [List.foldl_cons]
      apply ih
      · rw [List.length_zipWith, ha, hr r (List.mem_cons_self r t)]
        exact Nat.min_self dim
      · intro x hx
        exact hr x (List.mem_cons_of_mem r hx)

/-- Auxiliary: `npFold2` of equal-length rows has that common length. -/
theorem npFold2_length (f : ℚ → ℚ → ℚ) (dim : Nat) (rows : List (List ℚ))
    (hne : rows ≠ []) (hr : ∀ r ∈ rows, r.length = dim) :
    (npFold2 f rows).length = dim := by
  cases rows with
  | nil => exact absurd rfl hne
  | cons r t =>
      simp only [npFold2]
      exact foldl_zipWith_length f dim t r (hr r (List.mem_cons_self r t))
        (fun x hx => hr x (List.mem_cons_of_mem r hx))

/-- Auxiliary: the mean/max/min concatenation over nonempty equal-length rows
has length `dim * 3`. -/
theorem concatAggreg_length (dim : Nat) (rows : List (List ℚ))
    (hne : rows ≠ []) (hr : ∀ r ∈ rows, r.length = dim) :
    (concatAggreg rows).length = dim * 3 := by
  have h1 : (npMean2 rows).length = dim := by
    simpa [npMean2] using npFold2_length (fun a b => a + b) dim rows hne hr
  have h2 : (npMax2 rows).length = dim := npFold2_length max dim rows hne hr
  have h3 : (npMin2 rows).length = dim := npFold2_length min dim rows hne hr
  simp [concatAggreg, h1, h2, h3]
  omega

/-- Auxiliary: every resolved token vector comes from the vocabulary, hence
has the embedding dimension. -/
theorem resolveTokens_length (vocab : List (String × List ℚ)) (dim : Nat)
    (hv : ∀ p ∈ vocab, p.2.length = dim) (note : List String) :
    ∀ r ∈ resolveTokens vocab note, r.length = dim := by
  intro r hrm
  rcases List.mem_filterMap.mp hrm with ⟨w, _, hl⟩
  unfold vocabLookup at hl
  cases hf : vocab.find? (fun p => p.1 == w) with
  | none => rw [hf] at hl; exact absurd hl (by simp)
  | some p =>
      rw [hf] at hl
      have hp : p.2 = r := by simpa using hl
      exact hp ▸ hv p (List.mem_of_find?_eq_some hf)

/-- C4: for every corpus of N tokenized notes, `transform` returns exactly N
rows of length `3 x embeddingDimension`; a note in which no token resolves in
the vocabulary yields the zero row of that length (out-of-vocabulary tokens
are skipped, never an error), and any other note yields the concatenation of
elementwise mean, max and min over its resolved token vectors, in that fixed
order. -/
theorem c4_transform_row_alignment (vocab : List (String × List ℚ)) (dim : Nat)
    (text : List (List String)) (hv : ∀ p ∈ vocab, p.2.length = dim) :
    (transform vocab dim text).length = text.length ∧
    (∀ row ∈ transform vocab dim text, row.length = dim * 3) ∧
    (∀ i, (hi : i < text.length) →
      (transform vocab dim text)[i]? = some (
        if (resolveTokens vocab (text.get ⟨i, hi⟩)).isEmpty then List.replicate (dim * 3) 0
        else npMean2 (resolveTokens vocab (text.get ⟨i, hi⟩))
          ++ npMax2 (resolveTokens vocab (text.get ⟨i, hi⟩))
          ++ npMin2 (resolveTokens vocab (text.get ⟨i, hi⟩)))) := by
  refine ⟨by simp [transform], ?_, ?_⟩
  · intro row hrow
    rcases List.mem_map.mp hrow with ⟨note, _, heq⟩
    by_cases hres : (resolveTokens vocab note).isEmpty = true
    · rw [← heq, if_pos hres]
      simp
    · rw [← heq, if_neg hres]
      have hne : resolveTokens vocab note ≠ [] := by
        simpa [List.isEmpty_iff] using hres
      exact concatAggreg_length dim (resolveTokens vocab note) hne
        (resolveTokens_length vocab dim hv note)
  · intro i hi
    show (List.map _ text)[i]? = _
    rw [List.getElem?_map, List.getElem?_eq_getElem hi]
    rfl

/-- C4 witness: a two-note corpus over a dimension-1 vocabulary, whose second
note is entirely out of vocabulary. -/
theorem c4_transform_row_alignment_witness :
    (transform [("a", [1]), ("b", [3])] 1 [["a", "b"], ["zz"]]).length = 2 ∧
    (transform [("a", [1]), ("b", [3])] 1 [["a", "b"], ["zz"]])[1]?
      = some (List.replicate 3 0) := by
  have h := c4_transform_row_alignment [("a", [1]), ("b", [3])] 1 [["a", "b"], ["zz"]]
    (by decide)
  exact ⟨h.1, h.2.2 1 (by decide)⟩

set_option maxRecDepth 10000 in
/-- C3 evidence of the bug in the overflow loop of `EncodedDataset.__init__`:
the tokenizer returns `overflowing_tokens` with shape `(1, m)`, and
`n_overflow = len(overflow)` is the first-axis size 1, so the loop runs
`ceil(1/L) = 1` time on the whole tensor instead of `ceil(m/L)` times on
chunks. With budget `L = 256`: an overflow of 512 tokens (which per the claim
should yield 2 full Units) hits `torch.zeros(256 - 512)` and raises; an
overflow of 100 tokens (which should yield 1 padded Unit) concatenates a 2-D
tensor with a 1-D one and raises; only an overflow of exactly `L` tokens
survives, producing one `(1, 256)` Unit. -/
theorem c3_overflow_chunking_bug :
    encodedInit [(1, 0, encWithOverflow 512)] 256
      = Except.error "RuntimeError: Trying to create tensor with negative dimension" ∧
    encodedInit [(1, 0, encWithOverflow 100)] 256
      = Except.error "RuntimeError: Tensors must have same number of dimensions" ∧
    encodedInit [(1, 0, encWithOverflow 256)] 256
      = Except.ok ⟨[Tensor.d1 (List.replicate 256 5), Tensor.d2 ⟨1, 256, [List.replicate 256 9]⟩],
          [Tensor.d1 (List.replicate 256 1), Tensor.d1 (List.replicate 256 1)],
          [0, 0], [1, 1]⟩ := by
  exact ⟨rfl, rfl, rfl⟩

/-- Auxiliary: a successful `overflowStep` appends exactly one element to each
of the four lists. -/
theorem overflowStep_lengths (L patient label : Nat) (ov : Tensor2)
    (acc acc' : EncodedDataset) (i : Nat)
    (h : overflowStep L patient label ov acc i = Except.ok acc') :
    acc'.inputIds.length = acc.inputIds.length + 1 ∧
    acc'.attnMasks.length = acc.attnMasks.length + 1 ∧
    acc'.labels.length = acc.labels.length + 1 ∧
    acc'.patientIds.length = acc.patientIds.length + 1 := by
  unfold overflowStep at h
  dsimp only at h
  split at h
  · cases h
    exact ⟨by simp, by simp, by simp, by simp⟩
  · split at h
    · exact Except.noConfusion h
    · split at h
      · exact Except.noConfusion h
      · split at h
        · exact Except.noConfusion h
        · split at h
          · exact Except.noConfusion h
          · cases h
            exact ⟨by simp, by simp, by simp, by simp⟩

/-- Auxiliary: `foldE` preserves any predicate its step preserves. -/
theorem foldE_inv {α β : Type} (P : β → Prop) (f : β → α → Except String β)
    (hf : ∀ b a b', f b a = Except.ok b' → P b → P b') :
    ∀ (l : List α) (b b' : β), foldE f b l = Except.ok b' → P b → P b' := by
  intro l
  induction l with
  | nil =>
      intro b b' h hb
      simp only [foldE] at h
      cases h
      exact hb
  | cons a t ih =>
      intro b b' h hb
      simp only [foldE] at h
      cases hfa : f b a with
      | error e => rw [hfa] at h; exact Except.noConfusion h
      | ok b1 => rw [hfa] at h; exact ih b1 b' h (hf b a b1 hfa hb)

/-- Auxiliary: a successful `overflowStep` preserves the alignment
invariant. -/
theorem overflowStep_balanced (L patient label : Nat) (ov : Tensor2)
    (acc acc' : EncodedDataset) (i : Nat)
    (h : overflowStep L patient label ov acc i = Except.ok acc')
    (hb : balanced acc) : balanced acc' := by
  obtain ⟨l1, l2, l3, l4⟩ := overflowStep_lengths L patient label ov acc acc' i h
  obtain ⟨b1, b2, b3⟩ := hb
  exact ⟨by omega, by omega, by omega⟩

/-- Auxiliary: a successful `initStep` preserves the alignment invariant. -/
theorem initStep_balanced (L : Nat) (acc acc' : EncodedDataset)
    (row : Nat × Nat × Encoding) (h : initStep L acc row = Except.ok acc')
    (hb : balanced acc) : balanced acc' := by
  obtain ⟨b1, b2, b3⟩ := hb
  unfold initStep at h
  dsimp only at h
  split at h
  · exact Except.noConfusion h
  · split at h
    · exact Except.noConfusion h
    · split at h
      · cases h
        exact ⟨by simp [b1], by simp [b2], by simp [b3]⟩
      · refine foldE_inv balanced _ ?_ _ _ acc' h
          ⟨by simp [b1], by simp [b2], by simp [b3]⟩
        intro b a b' hstep hPb
        exact overflowStep_balanced _ _ _ _ b b' a hstep hPb

/-- C10: every successful `EncodedDataset` construction leaves the four
parallel lists `input_ids`, `attn_masks`, `labels` and `patient_ids` with
equal length (every primary or overflow Unit appends one element to each),
`__len__` is that common length, and `__getitem__` succeeds at every index
below it, returning the four aligned components of one Unit. -/
theorem c10_dataset_alignment (rowsDf : List (Nat × Nat × Encoding)) (L : Nat)
    (ds : EncodedDataset) (h : encodedInit rowsDf L = Except.ok ds) :
    ds.inputIds.length = dsLen ds ∧ ds.attnMasks.length = dsLen ds ∧
    ds.labels.length = dsLen ds ∧ dsLen ds = ds.patientIds.length ∧
    ∀ idx, idx < dsLen ds → (getItem ds idx).isSome = true := by
  have hb : balanced ds := by
    refine foldE_inv balanced (initStep L) ?_ rowsDf _ ds h ⟨rfl, rfl, rfl⟩
    intro b a b' hstep hPb
    exact initStep_balanced L b b' a hstep hPb
  obtain ⟨h1, h2, h3⟩ := hb
  refine ⟨h1, h2, h3, rfl, ?_⟩
  intro idx hidx
  have hd : dsLen ds = ds.patientIds.length := rfl
  have i1 := List.getElem?_eq_getElem (l := ds.inputIds) (show idx < ds.inputIds.length by omega)
  have i2 := List.getElem?_eq_getElem (l := ds.attnMasks) (show idx < ds.attnMasks.length by omega)
  have i3 := List.getElem?_eq_getElem (l := ds.labels) (show idx < ds.labels.length by omega)
  have i4 := List.getElem?_eq_getElem (l := ds.patientIds)
    (show idx < ds.patientIds.length by omega)
  simp [getItem, i1, i2, i3, i4]

/-- C10 witness: the concrete two-row dataframe `sampleRows` with budget 2
builds `sampleDS`, which has three aligned Units. -/
theorem c10_dataset_alignment_witness :
    sampleDS.inputIds.length = dsLen sampleDS ∧
    (getItem sampleDS 2).isSome = true := by
  have h := c10_dataset_alignment sampleRows 2 sampleDS rfl
  exact ⟨h.1, h.2.2.2.2 2 (by decide)⟩

end Mimic3
